import Mathlib

/-!
Verification development for the ComfyUI-Gallery folder-watch-and-diff engine.

The Python sources (`folder_monitor.py`, `folder_scanner.py`, `server.py`) are
shallowly embedded below: Python dicts become association lists, fallible
filesystem primitives become `Except`/`Bool`-flagged values, and the
thread/timer behaviour of the debounced watcher becomes an explicit step
relation on a small state type.  Machine reals (mtimes) are abstracted to
`Nat`, which is faithful for every property proved here because the code only
ever compares them for equality.

The file is organised as definitions first (the embedding), then theorems.
-/

namespace Gallery

/-! ## Association lists (the embedding of Python dicts)

Python dict reads (`d.get(k)`, `k in d`, `d[k]`) are embedded as lookups in an
association list; dict writes (`d[k] = v`) replace the first binding of the
key or append a fresh one. -/

/-- First-match lookup in an association list, the embedding of `d.get(k)`. -/
def alookup {κ α : Type} [DecidableEq κ] (k : κ) : List (κ × α) → Option α
  | [] => none
  | (k₁, v) :: rest => if k₁ = k then some v else alookup k rest

/-- Dict write `d[k] = v`: replace the first binding of `k`, or append. -/
def aset {κ α : Type} [DecidableEq κ] (k : κ) (v : α) : List (κ × α) → List (κ × α)
  | [] => [(k, v)]
  | (k₁, v₁) :: rest => if k₁ = k then (k, v) :: rest else (k₁, v₁) :: aset k v rest

/-- The key list of a dict, the embedding of `d.keys()`. -/
def keys {κ α : Type} (l : List (κ × α)) : List κ := l.map Prod.fst

/-- Boolean membership in a key list, the embedding of `k in s`. -/
def memKey {κ : Type} [DecidableEq κ] (k : κ) : List κ → Bool
  | [] => false
  | x :: xs => if x = k then true else memKey k xs

/-- Set union of two key lists as iterated by the Python code
(`set(old.keys()) | set(new.keys())`): keep the left list, then the
members of the right list not already present on the left. -/
def unionKeys {κ : Type} [DecidableEq κ] (xs ys : List κ) : List κ :=
  xs ++ ys.filter (fun k => !(memKey k xs))

/-! ## Data model

A `FileEntry` is the per-file record built by `folder_scanner._scan_for_images`
(fields `name`, `url`, `timestamp`, `date`, `metadata`, `type`).  A folder is
a dict filename → entry, and a snapshot is a dict folder-key → folder. -/

/-- The opaque metadata mapping returned by the metadata extractor. -/
abbrev Metadata := List (String × String)

/-- One media file's record, as built by the scanner. -/
structure FileEntry where
  name : String
  url : String
  timestamp : Nat
  date : String
  metadata : Metadata
  type : String
deriving DecidableEq, Repr

/-- A folder's dict: filename → entry. -/
abbrev Folder := List (String × FileEntry)

/-- A snapshot: folder-key → folder. -/
abbrev Snapshot := List (String × Folder)

/-- The change record stored per filename by `detect_folder_changes`:
`{"action": "create", **new_file_data}` carries the new entry's fields,
`{"action": "remove"}` carries nothing, `{"action": "update", **new_file_data}`
carries the new entry's fields. -/
inductive ChangeAction where
  | create (entry : FileEntry)
  | remove
  | update (entry : FileEntry)
deriving DecidableEq, Repr

/-- A folder's slice of the diff: filename → change record. -/
abbrev FolderDiff := List (String × ChangeAction)

/-! ## The change detector (`detect_folder_changes`, folder_monitor.py lines 282-310) -/

/-- The per-filename classification performed by the body of the inner loop of
`detect_folder_changes`: the Python code tests `filename not in old_folder`,
then `filename not in new_folder`, then `old_file_data != new_file_data`.
The `(none, none)` case cannot arise for a filename drawn from the union of
the two key sets and yields no change record. -/
def classify (old_folder new_folder : Folder) (filename : String) : Option ChangeAction :=
  match alookup filename old_folder, alookup filename new_folder with
  | none, some e => some (.create e)
  | none, none => none
  | some _, none => some .remove
  | some e₁, some e₂ => if e₁ ≠ e₂ then some (.update e₂) else none

/-- The inner loop of `detect_folder_changes`: iterate the union of the two
folders' filename sets and collect the change records. -/
def diffFolder (old_folder new_folder : Folder) : FolderDiff :=
  (unionKeys (keys old_folder) (keys new_folder)).filterMap
    (fun filename => (classify old_folder new_folder filename).map (fun a => (filename, a)))

/-- The outer loop of `detect_folder_changes`: the dict bound to the
`"folders"` key of the result.  A folder is included only if its
`folder_changes` dict is non-empty. -/
def foldersDiff (old_folders new_folders : Snapshot) : List (String × FolderDiff) :=
  (unionKeys (keys old_folders) (keys new_folders)).filterMap
    (fun folder_name =>
      let old_folder := (alookup folder_name old_folders).getD []
      let new_folder := (alookup folder_name new_folders).getD []
      let folder_changes := diffFolder old_folder new_folder
      (if folder_changes = [] then none else some folder_changes).map
        (fun fc => (folder_name, fc)))

/-- The function `detect_folder_changes`: returns the dict `{"folders": {...}}`.
Note the returned top-level dict always carries the single key `"folders"`. -/
def detect_folder_changes (old_folders new_folders : Snapshot) :
    List (String × List (String × FolderDiff)) :=
  [("folders", foldersDiff old_folders new_folders)]

/-- Python truthiness of a dict: non-empty iff it has at least one key. -/
def pyDictTruthy {κ α : Type} (d : List (κ × α)) : Bool := !d.isEmpty

/-- The publish decision taken by `rescan_and_send_changes`
(folder_monitor.py lines 219-238): `if changes:` on the dict returned by
`detect_folder_changes`. -/
def rescan_publish_decision (old_folders new_folders : Snapshot) : Bool :=
  pyDictTruthy (detect_folder_changes old_folders new_folders)

/-! ## Character-list string primitives

The Python code manipulates paths as strings.  These helpers embed the string
operations it uses (`startswith`, `endswith`, slicing, `str.lower`,
`str.split("/")`) as structurally recursive functions over the underlying
character lists, so every concrete instance evaluates inside the kernel. -/

/-- Leading-substring test on character lists (the embedding of
`str.startswith`). -/
def leadsWith : List Char → List Char → Bool
  | [], _ => true
  | _ :: _, [] => false
  | p :: ps, c :: cs => p = c && leadsWith ps cs

/-- The test `s.startswith(p)` on Python strings. -/
def strStartsWith (s p : String) : Bool := leadsWith p.data s.data

/-- The test `s.endswith(p)` on Python strings: a trailing substring is a
leading substring of the reversal. -/
def strEndsWith (s p : String) : Bool := leadsWith p.data.reverse s.data.reverse

/-- The slice `s[n:]` on Python strings (slicing by character count). -/
def strDropLen (n : Nat) (s : String) : String := ⟨s.data.drop n⟩

/-- The length `len(s)` of a Python string. -/
def strLen (s : String) : Nat := s.data.length

/-- The case folding `s.lower()` on Python strings (ASCII suffices here). -/
def lowerStr (s : String) : String := ⟨s.data.map Char.toLower⟩

/-- The split `s.split("/")` on the character list: splitting on a
separator, keeping empty segments, as Python does. -/
def splitSlash : List Char → List (List Char)
  | [] => [[]]
  | c :: cs =>
    match splitSlash cs with
    | [] => [[]]
    | seg :: segs => if c = '/' then [] :: seg :: segs else (c :: seg) :: segs

/-! ## Path primitives (posix semantics, symlink-free model)

The functions `os.path.normpath`, `os.path.join`, `os.path.basename` and
`os.path.dirname` are embedded with posix semantics.  `os.path.realpath`
resolves symlinks against the live filesystem; the model is symlink-free, so
realpath normalises and nothing more. -/

/-- The left-fold step of `os.path.normpath` over one segment: drop empty and
`"."` segments, let `".."` pop the previous segment (at the root of an
absolute path a leading `".."` is dropped; in a relative path leading
`".."`s are kept). -/
def normStep (isAbs : Bool) (acc : List String) (seg : String) : List String :=
  if seg = "" ∨ seg = "." then acc
  else if seg = ".." then
    if acc ≠ [] ∧ acc.getLast? ≠ some ".." then acc.dropLast
    else if isAbs then acc else acc ++ [".."]
  else acc ++ [seg]

/-- The normalisation `os.path.normpath` (posix): split on `/`, normalise the
segments, and re-join; an absolute path keeps its leading `/`, an empty
relative result becomes `"."`. -/
def normpath (s : String) : String :=
  let isAbs := strStartsWith s "/"
  let segs := (splitSlash s.data).map (fun l => (⟨l⟩ : String))
  let normed := segs.foldl (normStep isAbs) []
  let joined := String.intercalate "/" normed
  if isAbs then "/" ++ joined else if joined = "" then "." else joined

/-- The join `os.path.join(a, b)` (posix, two arguments as used by the code). -/
def joinpath (a b : String) : String :=
  if strStartsWith b "/" then b
  else if a = "" then b
  else if strEndsWith a "/" then a ++ b
  else a ++ "/" ++ b

/-- The resolution `os.path.realpath` in the symlink-free filesystem model:
absolute inputs are only normalised. -/
def realpath (s : String) : String := normpath s

/-- The tail `os.path.basename` (posix): the part after the last `/`. -/
def basename (s : String) : String :=
  ⟨((s.data.reverse.takeWhile (fun c => c ≠ '/')).reverse)⟩

/-- The head `os.path.dirname` (posix): the part up to the last `/`, with
trailing slashes stripped unless the result is all slashes. -/
def dirname (s : String) : String :=
  let headRev := s.data.reverse.dropWhile (fun c => c ≠ '/')
  let head := headRev.reverse
  if head = [] then ""
  else if head.all (fun c => c = '/') then ⟨head⟩
  else ⟨(head.reverse.dropWhile (fun c => c = '/')).reverse⟩

/-- Removal of the first occurrence of a path from the file list
(`os.remove`, and the source half of `shutil.move`). -/
def removeFirst (k : String) : List String → List String
  | [] => []
  | x :: xs => if x = k then xs else x :: removeFirst k xs

/-! ## The delete and move endpoints (server.py lines 164-245)

The filesystem is modelled as the list of existing (normalised, absolute)
file paths plus the list of existing directory paths; the model is
symlink-free, so `os.path.realpath` is `normpath`.  Only the pieces the
requests touch are embedded: request parsing of `image_path` /
`source_path` / `target_path`, path resolution, the containment checks, and
the resulting response and filesystem. -/

/-- The response classes the two endpoints produce. -/
inductive HttpOutcome where
  | badRequest
  | notFound
  | forbidden
  | ok
deriving DecidableEq, Repr

/-- The endpoint `delete_image` (server.py lines 164-192): parse the
`/static_gallery/` URL, resolve against the mounted directory with
`normpath(join(...))`, answer 404 if the resolved path does not exist, 403 if
the resolved path string does not start with `realpath(static_dir)`,
otherwise remove the file.  Returns the response together with the resulting
file list. -/
def delete_image (fs : List String) (static_dir : String) (image_url : String) :
    HttpOutcome × List String :=
  if image_url = "" then (.badRequest, fs)
  else if strStartsWith image_url "/static_gallery/" then
    let relative_path := strDropLen (strLen "/static_gallery/") image_url
    let full_image_path := normpath (joinpath static_dir relative_path)
    if !(memKey full_image_path fs) then (.notFound, fs)
    else if !(strStartsWith full_image_path (realpath static_dir)) then (.forbidden, fs)
    else (.ok, removeFirst full_image_path fs)
  else (.badRequest, fs)

/-- The helper `make_path` of `move_image`: absolute inputs are only
normalised; relative inputs first drop a leading `<basename(static_dir)>/`
segment (the code tests the leading segment against both `os.sep` and `"/"`,
which coincide on posix) and are then resolved against the mounted
directory. -/
def make_path (static_dir p : String) : String :=
  if strStartsWith p "/" then normpath p
  else
    let bn := basename (normpath static_dir)
    let p₁ := if strStartsWith p (bn ++ "/") then strDropLen (strLen (bn ++ "/")) p else p
    normpath (joinpath static_dir p₁)

/-- The endpoint `move_image` (server.py lines 194-245): resolve source and
target with `make_path`, answer 404 if the source does not exist, 403 if any
of the four `realpath(...).startswith(realpath(...))` containment checks
against the mounted directory and the host install root fails, otherwise
move the file (into the target directory when the target is an existing
directory), creating the target's parent directory if missing.  Returns the
response with the resulting file and directory lists. -/
def move_image (fs dirs : List String) (static_dir comfy_path : String)
    (source_path target_path : String) : HttpOutcome × List String × List String :=
  if source_path = "" ∨ target_path = "" then (.badRequest, fs, dirs)
  else
    let full_source_path := make_path static_dir source_path
    let full_target_path := make_path static_dir target_path
    if !(memKey full_source_path fs) then (.notFound, fs, dirs)
    else if !(strStartsWith (realpath full_source_path) (realpath static_dir)) ||
            !(strStartsWith (realpath full_target_path) (realpath static_dir)) ||
            !(strStartsWith (realpath full_source_path) (realpath comfy_path)) ||
            !(strStartsWith (realpath full_target_path) (realpath comfy_path))
    then (.forbidden, fs, dirs)
    else
      let full_target := if memKey full_target_path dirs
        then joinpath full_target_path (basename full_source_path)
        else full_target_path
      let target_dir := dirname full_target
      let dirs₁ := if memKey target_dir dirs || memKey target_dir fs
        then dirs else target_dir :: dirs
      (.ok, full_target :: removeFirst full_source_path fs, dirs₁)

/-- Containment with a path-separator boundary: what "the path stays within
the directory" means in the spec's sense (the path is the directory itself or
sits strictly below it).  Stated from the spec's words, for comparison with
the plain string-prefix test the code performs. -/
def underDir (d p : String) : Bool := (p = d) || strStartsWith p (d ++ "/")

/-! ## The tree scanner (`folder_scanner._scan_for_images`)

The directory tree under the scanned root is modelled as an inductive tree.
A directory whose `os.listdir` raises is a `dir` node with `readable :=
false`; a file's `os.path.getmtime` and the metadata extractor
`buildMetadata` are each modelled as `Except` values, the `error` case being
the primitive raising.  The walk accumulates `relative_path` by joining
entry names, which for every visited directory equals the
`os.path.relpath(dir_path, full_base_path)` the code computes (with the
root's `"."` already replaced by `""` as the code does for `subfolder`). -/

/-- A node of the scanned tree. -/
inductive FsTree where
  | file (name : String) (mtime : Except Unit Nat) (meta : Except Unit Metadata)
  | dir (name : String) (readable : Bool) (children : List FsTree)
deriving Repr

/-- The extensions treated as images (metadata is extracted for these). -/
def imageExts : List String := [".png", ".jpg", ".jpeg", ".webp"]

/-- The extensions accepted into the snapshot at all. -/
def mediaExts : List String := [".png", ".jpg", ".jpeg", ".webp", ".mp4", ".gif", ".webm"]

/-- The test `entry.lower().endswith(tuple_of_extensions)`. -/
def hasExtIn (exts : List String) (entry : String) : Bool :=
  exts.any (fun e => strEndsWith (lowerStr entry) e)

/-- The replacement `url_path.replace("\\", "/")`. -/
def replaceBackslash (s : String) : String :=
  ⟨s.data.map (fun c => if c = '\\' then '/' else c)⟩

/-- The `/static_gallery/...` URL built for a file of a (possibly root)
subfolder. -/
def urlOf (subfolder filename : String) : String :=
  replaceBackslash (if subfolder ≠ ""
    then "/static_gallery/" ++ subfolder ++ "/" ++ filename
    else "/static_gallery/" ++ filename)

/-- The per-file body of the scanner's second loop: media-extension filter,
mtime (a raise skips the file via the inner `except`), metadata for images
only (a raise degrades to the empty mapping via its own `except`), and the
assembled `FileEntry`.  Returns `none` when the file is filtered out or
skipped. -/
def fileRecord (dateStr : Nat → String) (subfolder name : String)
    (mtime : Except Unit Nat) (meta : Except Unit Metadata) :
    Option (String × FileEntry) :=
  if hasExtIn mediaExts name then
    match mtime with
    | .error _ => none
    | .ok t =>
      some (name,
        { name := name
          url := urlOf subfolder name
          timestamp := t
          date := dateStr t
          metadata := if hasExtIn imageExts name
            then (match meta with | .ok m => m | .error _ => [])
            else []
          type := if hasExtIn imageExts name then "image" else "media" })
  else none

/-- The `folder_content` dict built from a directory's file entries. -/
def folderContent (dateStr : Nat → String) (subfolder : String)
    (children : List FsTree) : Folder :=
  children.filterMap (fun child =>
    match child with
    | .file n mt me => fileRecord dateStr subfolder n mt me
    | .dir _ _ _ => none)

mutual

/-- The walk `scan_directory(dir_path, relative_path)`: an unreadable
directory (its `os.listdir` raising is caught by the outer `except`)
contributes nothing; otherwise recurse into non-dot subdirectories, build
the folder's content, and record it under its folder key only when
non-empty. -/
def scanTree (dateStr : Nat → String) (base_path : String)
    (include_subfolders : Bool) : FsTree → String → Snapshot
  | .file _ _ _, _ => []
  | .dir _ false _, _ => []
  | .dir _ true children, relative_path =>
      scanChildren dateStr base_path include_subfolders children relative_path ++
      (let folder_content := folderContent dateStr relative_path children
       let folder_key := if relative_path = "" then base_path
         else joinpath base_path relative_path
       if folder_content = [] then [] else [(folder_key, folder_content)])

/-- The recursion of the first loop of `scan_directory` over the directory's
entries: descend into each subdirectory (when `include_subfolders` holds and
the name is not dot-prefixed). -/
def scanChildren (dateStr : Nat → String) (base_path : String)
    (include_subfolders : Bool) : List FsTree → String → Snapshot
  | [], _ => []
  | .file _ _ _ :: rest, relative_path =>
      scanChildren dateStr base_path include_subfolders rest relative_path
  | .dir n r kids :: rest, relative_path =>
      (if include_subfolders && !(strStartsWith n ".") then
        scanTree dateStr base_path include_subfolders (.dir n r kids)
          (joinpath relative_path n)
       else []) ++
      scanChildren dateStr base_path include_subfolders rest relative_path

end

/-- The scanner entry point `_scan_for_images(full_base_path, base_path,
include_subfolders)`: scan from the root (the tree standing for
`full_base_path`) and return the snapshot together with the always-`False`
`changed` flag. -/
def _scan_for_images (dateStr : Nat → String) (root : FsTree) (base_path : String)
    (include_subfolders : Bool) : Snapshot × Bool :=
  (scanTree dateStr base_path include_subfolders root "", false)

/-! ## The watcher's event path (`GalleryEventHandler`, folder_monitor.py)

Watchdog delivers an event to the handler only if one of the event's paths
matches a subscribed pattern (`PatternMatchingEventHandler` is constructed
with `case_sensitive=True` — the handler signature's default — and with
`ignore_patterns=None`, `ignore_directories=False`).  Every subscribed
pattern has the shape `*SUFFIX`, and `fnmatch`'s `*` matches any character
run, so pattern matching is the case-sensitive suffix test.  The handler's
own `on_any_event` then filters directories and temp files, deduplicates
`(event_type, realpath)` pairs inside the debounce window, and triggers the
debounce for the four mutating event types.  The symlink resolution
`os.path.realpath` of the live filesystem is abstracted as a function
parameter; wall-clock `time.time()` readings are abstracted to `Nat`. -/

/-- The pattern list passed to the handler (note: no `*.webm`). -/
def watchPatterns : List String :=
  ["*.png", "*.jpg", "*.jpeg", "*.webp", "*.mp4", "*.gif"]

/-- Case-sensitive fnmatch of a `*SUFFIX` pattern against a path. -/
def matchesPattern (path pat : String) : Bool :=
  strEndsWith path (strDropLen 1 pat)

/-- A raw watchdog event. -/
structure FsEvent where
  is_directory : Bool
  event_type : String
  src_path : String
  dest_path : Option String := none
deriving Repr

/-- The paths watchdog tests against the patterns: `src_path`, plus
`dest_path` when the event carries one (moves). -/
def eventPaths (e : FsEvent) : List String :=
  match e.dest_path with
  | some d => [e.src_path, d]
  | none => [e.src_path]

/-- The pattern-subscription layer: the event reaches `on_any_event` iff one
of its paths matches one of the subscribed patterns. -/
def patternDispatch (e : FsEvent) : Bool :=
  (eventPaths e).any (fun p => watchPatterns.any (fun pat => matchesPattern p pat))

/-- The handler's dedup dict: `(event_type, real_path)` → last-seen time. -/
abbrev ProcessedEvents := List ((String × String) × Nat)

/-- The handler `GalleryEventHandler.on_any_event` (folder_monitor.py lines
181-208): skip directory events, skip `.swp`/`.tmp`/`~` paths, suppress a
duplicate `(event_type, realpath)` within the debounce window, record the
event, and report whether `debounce_event` is invoked (the event type is one
of created/deleted/modified/moved).  Returns that decision with the updated
dedup dict. -/
def on_any_event (rp : String → String) (debounce_interval : Nat)
    (processed_events : ProcessedEvents) (current_time : Nat) (e : FsEvent) :
    Bool × ProcessedEvents :=
  if e.is_directory then (false, processed_events)
  else if strEndsWith e.src_path ".swp" || strEndsWith e.src_path ".tmp" ||
          strEndsWith e.src_path "~" then (false, processed_events)
  else
    let real_path := rp e.src_path
    let event_key := (e.event_type, real_path)
    let dup : Bool := match alookup event_key processed_events with
      | some last_processed_time =>
          decide (current_time - last_processed_time < debounce_interval)
      | none => false
    if dup then (false, processed_events)
    else
      (memKey e.event_type ["created", "deleted", "modified", "moved"],
       aset event_key current_time processed_events)

/-- The full event path: pattern-subscription dispatch, then the handler.
The Bool is whether the event triggers the debounce. -/
def handlesEvent (rp : String → String) (debounce_interval : Nat)
    (processed_events : ProcessedEvents) (current_time : Nat) (e : FsEvent) :
    Bool × ProcessedEvents :=
  if patternDispatch e then
    on_any_event rp debounce_interval processed_events current_time e
  else (false, processed_events)

/-! ## Monitor lifecycle (`FileSystemMonitor`, server.py `start_gallery_monitor`)

The monitor object is embedded as a record.  `__init__` runs
`_scan_for_images(base_path, "output", True)` synchronously and stores it in
the handler's `last_known_folders` before any thread starts; the observer is
always `Observer()` — the watchdog native observer.  The constructor's second
positional parameter is named `interval` (default `1.0`), and at the only
live call site `start_gallery_monitor` passes the request's
`use_polling_observer` boolean into it, so the field is embedded at the type
it actually receives. -/

/-- Which observer class the monitor instantiated. -/
inductive ObserverKind where
  | native
  | polling
deriving DecidableEq, Repr

/-- The monitor record: its constructor arguments, the observer it builds,
the handler state it owns (whether a debounce timer is pending and whether a
rescan is executing), the snapshot cache, and whether the observer thread is
alive. -/
structure FileSystemMonitor where
  base_path : String
  interval : Bool
  observer : ObserverKind
  handlerTimerPending : Bool
  handlerScanInFlight : Bool
  last_known_folders : Snapshot
  threadAlive : Bool

/-- The constructor `FileSystemMonitor.__init__` (folder_monitor.py lines
244-250): build the native observer unconditionally, seed
`last_known_folders` by a synchronous initial scan, no thread yet.
`rootTree` stands for the filesystem under `base_path` at construction
time. -/
def FileSystemMonitor_mk (dateStr : Nat → String) (rootTree : FsTree)
    (base_path : String) (interval : Bool) : FileSystemMonitor :=
  { base_path := base_path
    interval := interval
    observer := ObserverKind.native
    handlerTimerPending := false
    handlerScanInFlight := false
    last_known_folders := (_scan_for_images dateStr rootTree "output" true).1
    threadAlive := false }

/-- The method `start_monitoring`: start the observer thread when none is
alive. -/
def start_monitoring (m : FileSystemMonitor) : FileSystemMonitor :=
  if !m.threadAlive then { m with threadAlive := true } else m

/-- The method `stop_monitoring`: when the thread is alive, `observer.stop()`,
`observer.join()` and drop the thread — nothing else.  The handler's
debounce timer and any executing rescan are not referenced. -/
def stop_monitoring (m : FileSystemMonitor) : FileSystemMonitor :=
  if m.threadAlive then { m with threadAlive := false } else m

/-- The monitor-swap portion of the `start_gallery_monitor` endpoint
(server.py lines 107-142): stop the old monitor if its thread is alive, then
construct the new monitor — passing `use_polling_observer` as the second
positional argument — and start it.  Returns the started new monitor and the
old monitor's final state. -/
def start_gallery_monitor_core (old : Option FileSystemMonitor)
    (dateStr : Nat → String) (rootTree : FsTree) (full_monitor_path : String)
    (use_polling_observer : Bool) :
    FileSystemMonitor × Option FileSystemMonitor :=
  let old₁ := old.map (fun m => if m.threadAlive then stop_monitoring m else m)
  let monitor := FileSystemMonitor_mk dateStr rootTree full_monitor_path
    use_polling_observer
  (start_monitoring monitor, old₁)

/-- A busy old monitor: observer thread alive, debounce timer pending, a
rescan executing. -/
def staleMonitor : FileSystemMonitor :=
  { base_path := "/g/old"
    interval := false
    observer := ObserverKind.native
    handlerTimerPending := true
    handlerScanInFlight := true
    last_known_folders := []
    threadAlive := true }

/-! ## Timer and rescan interleaving

The methods `debounce_event` and `rescan_and_send_changes` manipulate
`threading.Timer` objects with no lock and no scan-in-progress flag.  Their
interleaved behaviour is embedded as a step relation over the handler's
timer state:

* every created timer is tracked with a status — `pending` (started, not
  fired), `cancelled` (`cancel()` before firing), `running` (fired, its
  `rescan_and_send_changes` executing), `done` (the rescan returned);
* `debounce` is `debounce_event`: if `self.debounce_timer` references a
  timer that `is_alive()` — pending or running — `cancel()` it, which stops
  a pending timer but has no effect on one whose callback already started;
  then create, start and reference a fresh timer;
* `fire` is the expiry of a pending timer's interval: its callback starts
  running (real time is abstracted away: a pending timer may fire at any
  step, which includes every schedule in which a rescan outlasts the 0.5 s
  debounce interval);
* `finish` is the end of `rescan_and_send_changes`, whose last statement
  sets `self.debounce_timer = None`. -/

/-- The lifecycle status of one `threading.Timer`. -/
inductive TimerStatus where
  | pending
  | cancelled
  | running
  | done
deriving DecidableEq, Repr

/-- The handler's timer state: all timers ever created (indexed by creation
order) and the index currently held in `self.debounce_timer`. -/
structure WatcherState where
  timers : List TimerStatus
  debounce_timer : Option Nat
deriving DecidableEq, Repr

/-- The call `self.debounce_timer.cancel()` guarded by `is_alive()`: a
pending referenced timer becomes cancelled; a running one is unaffected (its
callback already started); no reference or a dead timer is a no-op. -/
def cancelLive (ts : List TimerStatus) (ref : Option Nat) : List TimerStatus :=
  match ref with
  | none => ts
  | some i =>
    match ts.get? i with
    | some .pending => ts.set i .cancelled
    | _ => ts

/-- The state after `debounce_event`: cancel the referenced live timer, then
start and reference a fresh pending timer. -/
def debounceStep (s : WatcherState) : WatcherState :=
  { timers := cancelLive s.timers s.debounce_timer ++ [.pending]
    debounce_timer := some s.timers.length }

/-- One interleaving step of the watcher's timer machinery. -/
inductive WatcherStep : WatcherState → WatcherState → Prop
  | debounce (s : WatcherState) : WatcherStep s (debounceStep s)
  | fire (s : WatcherState) (i : Nat) (h : s.timers.get? i = some .pending) :
      WatcherStep s { timers := s.timers.set i .running
                      debounce_timer := s.debounce_timer }
  | finish (s : WatcherState) (i : Nat) (h : s.timers.get? i = some .running) :
      WatcherStep s { timers := s.timers.set i .done, debounce_timer := none }

/-- Reachability from the initial state (no timers, no reference). -/
inductive WatcherReach : WatcherState → Prop
  | init : WatcherReach { timers := [], debounce_timer := none }
  | step {s t : WatcherState} : WatcherReach s → WatcherStep s t → WatcherReach t

/-- How many rescans are executing. -/
def runningCount (s : WatcherState) : Nat :=
  s.timers.countP (fun t => t = TimerStatus.running)

/-- How many timers are pending (scheduled rescans). -/
def pendingCount (s : WatcherState) : Nat :=
  s.timers.countP (fun t => t = TimerStatus.pending)

end Gallery

/-- A concrete entry used to exercise the diff classification. -/
def sampleEntryA : Gallery.FileEntry :=
  { name := "a.png", url := "/static_gallery/a.png", timestamp := 1,
    date := "1970-01-01 00:00:01", metadata := [], type := "image" }

/-- The same file after a metadata-only change (all other fields equal). -/
def sampleEntryA2 : Gallery.FileEntry :=
  { name := "a.png", url := "/static_gallery/a.png", timestamp := 1,
    date := "1970-01-01 00:00:01", metadata := [("prompt", "cat")], type := "image" }

/-- A freshly created media entry. -/
def sampleEntryB : Gallery.FileEntry :=
  { name := "b.mp4", url := "/static_gallery/b.mp4", timestamp := 2,
    date := "1970-01-01 00:00:02", metadata := [], type := "media" }

namespace Gallery

/-! ## Lemmas about the dict embedding -/

theorem alookup_eq_none_iff {κ α : Type} [DecidableEq κ] (k : κ) (l : List (κ × α)) :
    alookup k l = none ↔ memKey k (keys l) = false := by
  induction l with
  | nil => simp [alookup, keys, memKey]
  | cons hd tl ih =>
    obtain ⟨k₁, v₁⟩ := hd
    by_cases h : k₁ = k <;> simp [alookup, keys, memKey, h, ih]

theorem memKey_append {κ : Type} [DecidableEq κ] (k : κ) (xs ys : List κ) :
    memKey k (xs ++ ys) = (memKey k xs || memKey k ys) := by
  induction xs with
  | nil => simp [memKey]
  | cons x xs ih =>
    by_cases h : x = k <;> simp [memKey, h, ih]

theorem memKey_filter {κ : Type} [DecidableEq κ] (k : κ) (p : κ → Bool) (l : List κ) :
    memKey k (l.filter p) = (memKey k l && p k) := by
  induction l with
  | nil => simp [memKey]
  | cons x xs ih =>
    by_cases h : x = k
    · subst h
      by_cases hp : p x <;> simp [List.filter, memKey, hp, ih]
    · by_cases hp : p x <;> simp [List.filter, memKey, h, hp, ih]

theorem memKey_unionKeys {κ : Type} [DecidableEq κ] (k : κ) (xs ys : List κ) :
    memKey k (unionKeys xs ys) = (memKey k xs || memKey k ys) := by
  unfold unionKeys
  rw [memKey_append, memKey_filter]
  cases h : memKey k xs <;> simp [h]

/-- Looking up a key in a list built by a keyed `filterMap` over a key list:
the result is exactly the generator applied at the key, whenever the key is
in the list (duplicates are harmless because every copy generates the same
binding). -/
theorem alookup_keyed_filterMap {κ α : Type} [DecidableEq κ]
    (g : κ → Option α) (ks : List κ) (k : κ) :
    alookup k (ks.filterMap (fun k₁ => (g k₁).map (fun a => (k₁, a))))
      = if memKey k ks then g k else none := by
  induction ks with
  | nil => simp [alookup, memKey]
  | cons x xs ih =>
    by_cases hx : x = k
    · subst hx
      cases hg : g x with
      | none =>
        simp only [List.filterMap_cons, hg, Option.map_none']
        rw [ih]
        cases hm : memKey x xs <;> simp [memKey, hm, hg]
      | some a =>
        simp [List.filterMap_cons, hg, alookup, memKey]
    · cases hg : g x with
      | none =>
        simp only [List.filterMap_cons, hg, Option.map_none']
        rw [ih]
        simp [memKey, hx]
      | some a =>
        simp only [List.filterMap_cons, hg, Option.map_some']
        simp only [alookup, if_neg hx]
        rw [ih]
        simp [memKey, hx]

theorem alookup_ne_none_of_some {κ α : Type} [DecidableEq κ] (k : κ)
    (l : List (κ × α)) (a : α) (h : alookup k l = some a) :
    memKey k (keys l) = true := by
  rcases hm : memKey k (keys l) with _ | _
  · rw [← alookup_eq_none_iff] at hm
    rw [h] at hm
    cases hm
  · rfl

/-! ## Lemmas about the change detector -/

theorem alookup_diffFolder (old_folder new_folder : Folder) (fn : String) :
    alookup fn (diffFolder old_folder new_folder)
      = if memKey fn (unionKeys (keys old_folder) (keys new_folder))
        then classify old_folder new_folder fn
        else none := by
  unfold diffFolder
  exact alookup_keyed_filterMap (classify old_folder new_folder) _ fn

theorem alookup_foldersDiff (old_folders new_folders : Snapshot) (fk : String) :
    alookup fk (foldersDiff old_folders new_folders)
      = if memKey fk (unionKeys (keys old_folders) (keys new_folders))
        then (if diffFolder ((alookup fk old_folders).getD [])
                            ((alookup fk new_folders).getD []) = []
              then none
              else some (diffFolder ((alookup fk old_folders).getD [])
                                    ((alookup fk new_folders).getD [])))
        else none := by
  unfold foldersDiff
  exact alookup_keyed_filterMap
    (fun fn => if diffFolder ((alookup fn old_folders).getD [])
                             ((alookup fn new_folders).getD []) = []
               then none
               else some (diffFolder ((alookup fn old_folders).getD [])
                                     ((alookup fn new_folders).getD []))) _ fk

theorem classify_self (f : Folder) (n : String) : classify f f n = none := by
  unfold classify
  cases alookup n f <;> simp

theorem diffFolder_self (f : Folder) : diffFolder f f = [] := by
  unfold diffFolder
  rw [List.filterMap_eq_nil_iff]
  intro n _
  rw [classify_self]
  rfl

theorem foldersDiff_self (s : Snapshot) : foldersDiff s s = [] := by
  unfold foldersDiff
  rw [List.filterMap_eq_nil_iff]
  intro k _
  simp [diffFolder_self]

/-- A filename present in the union of a folder's two sides forces the folder
key itself to be present in the union of the two snapshots' key sets. -/
theorem memKey_snapshot_of_memKey_folder (o n : Snapshot) (fk fn : String)
    (hmem : memKey fn (unionKeys (keys ((alookup fk o).getD []))
                                 (keys ((alookup fk n).getD []))) = true) :
    memKey fk (unionKeys (keys o) (keys n)) = true := by
  rw [memKey_unionKeys] at hmem
  rw [memKey_unionKeys]
  rcases Bool.or_eq_true_iff.mp hmem with h | h
  · cases ho : alookup fk o with
    | none => rw [ho] at h; simp [keys, memKey] at h
    | some f =>
      rw [alookup_ne_none_of_some fk o f ho]
      simp
  · cases hn : alookup fk n with
    | none => rw [hn] at h; simp [keys, memKey] at h
    | some f =>
      rw [alookup_ne_none_of_some fk n f hn]
      simp

/-! ## Lemmas about the string primitives -/

theorem leadsWith_of_leadsWith_le (a b l : List Char)
    (ha : leadsWith a l = true) (hb : leadsWith b l = true)
    (hle : b.length ≤ a.length) : leadsWith b a = true := by
  induction l generalizing a b with
  | nil =>
    cases a with
    | nil =>
      cases b with
      | nil => rfl
      | cons x xs => exact absurd hb (by simp [leadsWith])
    | cons x xs => exact absurd ha (by simp [leadsWith])
  | cons c cs ih =>
    cases a with
    | nil =>
      cases b with
      | nil => rfl
      | cons y ys => exact absurd hle (by simp)
    | cons x xs =>
      cases b with
      | nil => rfl
      | cons y ys =>
        simp only [leadsWith, Bool.and_eq_true, decide_eq_true_eq] at ha hb ⊢
        refine ⟨hb.1.trans ha.1.symm, ?_⟩
        exact ih xs ys ha.2 hb.2 (Nat.succ_le_succ_iff.mp hle)

/-- If a string ends with suffix `a`, and `b` is a candidate suffix no longer
than `a` that is not itself a suffix of `a`, the string does not end with
`b`.  This is how the temp-file suffixes are excluded for media paths. -/
theorem strEndsWith_exclusive (s a b : String)
    (ha : strEndsWith s a = true)
    (hle : b.data.length ≤ a.data.length)
    (hb : leadsWith b.data.reverse a.data.reverse = false) :
    strEndsWith s b = false := by
  rcases h : strEndsWith s b with _ | _
  · rfl
  · exfalso
    unfold strEndsWith at ha h
    have := leadsWith_of_leadsWith_le a.data.reverse b.data.reverse s.data.reverse
      ha h (by simpa using hle)
    rw [this] at hb
    cases hb

theorem strStartsWith_ne_empty (s p : String)
    (h : strStartsWith s p = true) (hp : p ≠ "") : s ≠ "" := by
  intro hs
  subst hs
  apply hp
  unfold strStartsWith at h
  cases hd : p.data with
  | nil => exact String.ext hd
  | cons c cs =>
    rw [hd] at h
    simp [leadsWith] at h

/-! ## Lemmas about the scanner and event filter -/

theorem hasExtIn_media_of_image (n : String)
    (h : hasExtIn imageExts n = true) : hasExtIn mediaExts n = true := by
  simp only [hasExtIn, imageExts, mediaExts, List.any_cons, List.any_nil,
    Bool.or_eq_true, Bool.or_eq_false_iff] at h ⊢
  tauto

/-- A path ending in a media extension cannot also carry one of the three
temp-file suffixes, provided the extension excludes each of them. -/
theorem tempSuffix_false_of_ext (s ext : String) (h : strEndsWith s ext = true)
    (hl₁ : (".swp" : String).data.length ≤ ext.data.length)
    (h₁ : leadsWith (".swp" : String).data.reverse ext.data.reverse = false)
    (hl₂ : (".tmp" : String).data.length ≤ ext.data.length)
    (h₂ : leadsWith (".tmp" : String).data.reverse ext.data.reverse = false)
    (hl₃ : ("~" : String).data.length ≤ ext.data.length)
    (h₃ : leadsWith ("~" : String).data.reverse ext.data.reverse = false) :
    (strEndsWith s ".swp" || strEndsWith s ".tmp" || strEndsWith s "~") = false := by
  rw [strEndsWith_exclusive s ext ".swp" h hl₁ h₁,
      strEndsWith_exclusive s ext ".tmp" h hl₂ h₂,
      strEndsWith_exclusive s ext "~" h hl₃ h₃]
  rfl

theorem patternDispatch_of_src (e : FsEvent)
    (h : watchPatterns.any (fun pat => matchesPattern e.src_path pat) = true) :
    patternDispatch e = true := by
  unfold patternDispatch eventPaths
  cases e.dest_path <;> simp_all

/-! ## Lemmas about the timer model -/

theorem countP_set_balance (p : TimerStatus → Bool) :
    ∀ (ts : List TimerStatus) (i : Nat) (a b : TimerStatus),
      ts.get? i = some a →
      (ts.set i b).countP p + (if p a then 1 else 0)
        = ts.countP p + (if p b then 1 else 0) := by
  intro ts
  induction ts with
  | nil => intro i a b h; cases h
  | cons x rest ih =>
    intro i a b h
    cases i with
    | zero =>
      have hx : x = a := by
        simpa using h
      subst hx
      simp only [List.set, List.countP_cons]
      omega
    | succ j =>
      have hj : rest.get? j = some a := by
        simpa using h
      have := ih j a b hj
      simp only [List.set, List.countP_cons]
      omega

/-- The concurrent-scan trace: an event starts timer 0; it fires and its
rescan starts; a second event arrives during the rescan — `cancel()` cannot
stop the already-running timer 0, so a fresh timer 1 starts; timer 1 fires
while rescan 0 is still executing.  Both rescans are then running. -/
theorem twoScansReachable :
    Gallery.WatcherReach
      { timers := [TimerStatus.running, TimerStatus.running]
        debounce_timer := some 1 } := by
  have r0 : WatcherReach { timers := [], debounce_timer := none } := .init
  have r1 : WatcherReach { timers := [.pending], debounce_timer := some 0 } :=
    .step r0 (.debounce _)
  have r2 : WatcherReach { timers := [.running], debounce_timer := some 0 } :=
    .step r1 (.fire _ 0 rfl)
  have r3 : WatcherReach { timers := [.running, .pending], debounce_timer := some 1 } :=
    .step r2 (.debounce _)
  exact .step r3 (.fire _ 1 rfl)

end Gallery

/-! ## Claim theorems -/

/-- C1 (code bug): `rescan_and_send_changes` guards the publish with
`if changes:`, but `changes` is the dict `{"folders": {...}}` returned by
`detect_folder_changes`, which always has the key `"folders"` and is
therefore always truthy.  The publish on `"Gallery.file_change"` happens on
every rescan, even when no folder has any changed file — the `else` branch
that would suppress the empty diff is unreachable.  Evaluated at the failing
input (two equal snapshots, here both empty): the diff has no changed folder,
yet the publish decision is `true`. -/
theorem C1_publish_guard_always_true :
    (∀ old_folders new_folders : Gallery.Snapshot,
      Gallery.rescan_publish_decision old_folders new_folders = true) ∧
    Gallery.foldersDiff [] [] = [] ∧
    Gallery.rescan_publish_decision [] [] = true := by
  refine ⟨fun o n => rfl, rfl, rfl⟩

/-- C2 counterexample: a state with two rescans executing simultaneously is
reachable — a rescan trigger arriving while a scan is in flight starts a new
timer (the `cancel()` in `debounce_event` cannot stop the timer whose
callback is already running, and no lock or scan-in-progress flag exists),
and when that timer fires before the first rescan returns, two scans run
their filesystem walks at the same time. -/
theorem C2_counterexample :
    Gallery.WatcherReach
      { timers := [Gallery.TimerStatus.running, Gallery.TimerStatus.running]
        debounce_timer := some 1 } ∧
    Gallery.runningCount
      { timers := [Gallery.TimerStatus.running, Gallery.TimerStatus.running]
        debounce_timer := some 1 } = 2 := by
  exact ⟨Gallery.twoScansReachable, rfl⟩

/-- C2 as amended: a rescan trigger arriving while the referenced debounce
timer is still pending cancels it and schedules exactly one replacement, so
triggers within the debounce-pending window do not increase the number of
scheduled rescans; but no mechanism serializes rescan execution — a state
with two rescans running simultaneously is reachable. -/
theorem C2_debounce_coalescing :
    (∀ (s : Gallery.WatcherState) (i : Nat),
      s.debounce_timer = some i →
      s.timers.get? i = some Gallery.TimerStatus.pending →
      Gallery.pendingCount (Gallery.debounceStep s) = Gallery.pendingCount s) ∧
    (∃ s : Gallery.WatcherState, Gallery.WatcherReach s ∧ Gallery.runningCount s = 2) := by
  constructor
  · intro s i href hget
    unfold Gallery.pendingCount Gallery.debounceStep
    simp only
    rw [List.countP_append]
    have hcancel : Gallery.cancelLive s.timers s.debounce_timer
        = s.timers.set i Gallery.TimerStatus.cancelled := by
      rw [href]
      have hget2 : s.timers[i]? = some Gallery.TimerStatus.pending := by
        rw [← List.get?_eq_getElem?]
        exact hget
      simp [Gallery.cancelLive, hget2]
    rw [hcancel]
    have hbal := Gallery.countP_set_balance
      (fun t => t = Gallery.TimerStatus.pending) s.timers i
      Gallery.TimerStatus.pending Gallery.TimerStatus.cancelled hget
    simp at hbal ⊢
    omega
  · exact ⟨_, Gallery.twoScansReachable, rfl⟩

/-- Witness for C2 as amended: a trigger arriving while the single pending
timer is referenced leaves exactly one pending timer. -/
theorem C2_debounce_coalescing_witness :
    Gallery.pendingCount
      (Gallery.debounceStep
        { timers := [Gallery.TimerStatus.pending], debounce_timer := some 0 })
      = Gallery.pendingCount
        { timers := [Gallery.TimerStatus.pending], debounce_timer := some 0 } := by
  exact C2_debounce_coalescing.1
    { timers := [Gallery.TimerStatus.pending], debounce_timer := some 0 } 0 rfl rfl

/-- C3: for every pair of snapshots, every folder key and every filename in
the union of the two sides' filename sets, `detect_folder_changes` classifies
the filename as exactly one of Create (absent in old, present in new; payload
is the new entry), Remove (present in old, absent in new; no payload), Update
(present in both, structurally unequal entries — all fields including
metadata; payload is the new entry), or omits it (present in both, equal);
and a folder whose change dict is empty is omitted from the diff. -/
theorem C3_classification (o n : Gallery.Snapshot) (fk fn : String)
    (oldF newF : Gallery.Folder)
    (ho : oldF = (Gallery.alookup fk o).getD [])
    (hn : newF = (Gallery.alookup fk n).getD [])
    (hmem : Gallery.memKey fn
      (Gallery.unionKeys (Gallery.keys oldF) (Gallery.keys newF)) = true) :
    (∀ e, Gallery.alookup fn oldF = none → Gallery.alookup fn newF = some e →
        Gallery.alookup fn ((Gallery.alookup fk (Gallery.foldersDiff o n)).getD [])
          = some (Gallery.ChangeAction.create e)) ∧
    (∀ e, Gallery.alookup fn oldF = some e → Gallery.alookup fn newF = none →
        Gallery.alookup fn ((Gallery.alookup fk (Gallery.foldersDiff o n)).getD [])
          = some Gallery.ChangeAction.remove) ∧
    (∀ e₁ e₂, Gallery.alookup fn oldF = some e₁ → Gallery.alookup fn newF = some e₂ →
        e₁ ≠ e₂ →
        Gallery.alookup fn ((Gallery.alookup fk (Gallery.foldersDiff o n)).getD [])
          = some (Gallery.ChangeAction.update e₂)) ∧
    (∀ e, Gallery.alookup fn oldF = some e → Gallery.alookup fn newF = some e →
        Gallery.alookup fn ((Gallery.alookup fk (Gallery.foldersDiff o n)).getD [])
          = none) ∧
    (Gallery.diffFolder oldF newF = [] →
        Gallery.alookup fk (Gallery.foldersDiff o n) = none) := by
  subst ho hn
  have hfk := Gallery.memKey_snapshot_of_memKey_folder o n fk fn hmem
  have hfold := Gallery.alookup_foldersDiff o n fk
  rw [hfk, if_pos rfl] at hfold
  have hfile := Gallery.alookup_diffFolder ((Gallery.alookup fk o).getD [])
    ((Gallery.alookup fk n).getD []) fn
  rw [hmem, if_pos rfl] at hfile
  have key : ∀ a, Gallery.classify ((Gallery.alookup fk o).getD [])
      ((Gallery.alookup fk n).getD []) fn = some a →
      Gallery.alookup fn ((Gallery.alookup fk (Gallery.foldersDiff o n)).getD [])
        = some a := by
    intro a ha
    rw [ha] at hfile
    have hne : Gallery.diffFolder ((Gallery.alookup fk o).getD [])
        ((Gallery.alookup fk n).getD []) ≠ [] := by
      intro hnil
      rw [hnil] at hfile
      simp [Gallery.alookup] at hfile
    rw [if_neg hne] at hfold
    rw [hfold]
    exact hfile
  refine ⟨?_, ?_, ?_, ?_, ?_⟩
  · intro e h₁ h₂
    exact key _ (by unfold Gallery.classify; rw [h₁, h₂])
  · intro e h₁ h₂
    exact key _ (by unfold Gallery.classify; rw [h₁, h₂])
  · intro e₁ e₂ h₁ h₂ hne
    exact key _ (by unfold Gallery.classify; rw [h₁, h₂]; simp [hne])
  · intro e h₁ h₂
    have hcl : Gallery.classify ((Gallery.alookup fk o).getD [])
        ((Gallery.alookup fk n).getD []) fn = none := by
      unfold Gallery.classify; rw [h₁, h₂]; simp
    rw [hcl] at hfile
    by_cases hnil : Gallery.diffFolder ((Gallery.alookup fk o).getD [])
        ((Gallery.alookup fk n).getD []) = []
    · rw [if_pos hnil] at hfold
      rw [hfold]
      simp [Gallery.alookup]
    · rw [if_neg hnil] at hfold
      rw [hfold]
      exact hfile
  · intro hnil
    rw [if_pos hnil] at hfold
    exact hfold

/-- Witness for C3: a metadata-only change is reported as Update with the new
entry, a new file as Create with its entry, on concrete snapshots. -/
theorem C3_classification_witness :
    Gallery.alookup "a.png"
      ((Gallery.alookup "output"
        (Gallery.foldersDiff [("output", [("a.png", sampleEntryA)])]
          [("output", [("a.png", sampleEntryA2), ("b.mp4", sampleEntryB)])])).getD [])
      = some (Gallery.ChangeAction.update sampleEntryA2) ∧
    Gallery.alookup "b.mp4"
      ((Gallery.alookup "output"
        (Gallery.foldersDiff [("output", [("a.png", sampleEntryA)])]
          [("output", [("a.png", sampleEntryA2), ("b.mp4", sampleEntryB)])])).getD [])
      = some (Gallery.ChangeAction.create sampleEntryB) := by
  constructor
  · exact (C3_classification [("output", [("a.png", sampleEntryA)])]
      [("output", [("a.png", sampleEntryA2), ("b.mp4", sampleEntryB)])]
      "output" "a.png" _ _ rfl rfl (by decide)).2.2.1 sampleEntryA sampleEntryA2
      (by decide) (by decide) (by decide)
  · exact (C3_classification [("output", [("a.png", sampleEntryA)])]
      [("output", [("a.png", sampleEntryA2), ("b.mp4", sampleEntryB)])]
      "output" "b.mp4" _ _ rfl rfl (by decide)).1 sampleEntryB
      (by decide) (by decide)

/-- C4: for every snapshot `S`, diffing `S` against itself yields the empty
diff: every folder's change dict is empty, so no folder is included and the
`"folders"` mapping of `detect_folder_changes S S` is empty. -/
theorem C4_diff_self_empty (S : Gallery.Snapshot) :
    Gallery.foldersDiff S S = [] ∧
    Gallery.detect_folder_changes S S = [("folders", [])] := by
  refine ⟨Gallery.foldersDiff_self S, ?_⟩
  unfold Gallery.detect_folder_changes
  rw [Gallery.foldersDiff_self]

/-- C5 counterexample: a delete request whose path resolves outside the
mounted directory but does not exist is answered 404, not the 403 the claim
requires for every out-of-bounds request.  Concretely, with `/g/out` mounted
and only `/g/out/a.png` existing, deleting `/static_gallery/../../etc/passwd`
resolves to `/etc/passwd` (outside the mount, failing even the code's own
string-prefix check) yet returns `notFound` because the existence test runs
first. -/
theorem C5_counterexample :
    Gallery.delete_image ["/g/out/a.png"] "/g/out" "/static_gallery/../../etc/passwd"
      = (Gallery.HttpOutcome.notFound, ["/g/out/a.png"]) ∧
    Gallery.strStartsWith
      (Gallery.normpath (Gallery.joinpath "/g/out"
        (Gallery.strDropLen (Gallery.strLen "/static_gallery/")
          "/static_gallery/../../etc/passwd")))
      (Gallery.realpath "/g/out") = false ∧
    Gallery.underDir (Gallery.realpath "/g/out")
      (Gallery.normpath (Gallery.joinpath "/g/out"
        (Gallery.strDropLen (Gallery.strLen "/static_gallery/")
          "/static_gallery/../../etc/passwd"))) = false := by
  refine ⟨by decide, by decide, by decide⟩

/-- C5 as amended: for every delete request, a resolved path that does not
exist is answered 404 with the filesystem unchanged, and an existing resolved
path that fails the code's string-prefix containment check against the
mounted directory is answered 403 with the filesystem unchanged; for every
move request, a missing source is answered 404 with the filesystem unchanged,
and an existing source for which any of the four string-prefix containment
checks (source and target against the mounted directory and against the host
install root) fails is answered 403 with the filesystem unchanged. -/
theorem C5_rejection_paths :
    (∀ (fs : List String) (static_dir image_url : String),
      Gallery.strStartsWith image_url "/static_gallery/" = true →
      (Gallery.memKey (Gallery.normpath (Gallery.joinpath static_dir
          (Gallery.strDropLen (Gallery.strLen "/static_gallery/") image_url))) fs = false →
        Gallery.delete_image fs static_dir image_url = (.notFound, fs)) ∧
      (Gallery.memKey (Gallery.normpath (Gallery.joinpath static_dir
          (Gallery.strDropLen (Gallery.strLen "/static_gallery/") image_url))) fs = true →
       Gallery.strStartsWith (Gallery.normpath (Gallery.joinpath static_dir
          (Gallery.strDropLen (Gallery.strLen "/static_gallery/") image_url)))
          (Gallery.realpath static_dir) = false →
        Gallery.delete_image fs static_dir image_url = (.forbidden, fs))) ∧
    (∀ (fs dirs : List String) (static_dir comfy_path source_path target_path : String),
      source_path ≠ "" → target_path ≠ "" →
      (Gallery.memKey (Gallery.make_path static_dir source_path) fs = false →
        Gallery.move_image fs dirs static_dir comfy_path source_path target_path
          = (.notFound, fs, dirs)) ∧
      (Gallery.memKey (Gallery.make_path static_dir source_path) fs = true →
       (Gallery.strStartsWith (Gallery.realpath (Gallery.make_path static_dir source_path))
          (Gallery.realpath static_dir) = false ∨
        Gallery.strStartsWith (Gallery.realpath (Gallery.make_path static_dir target_path))
          (Gallery.realpath static_dir) = false ∨
        Gallery.strStartsWith (Gallery.realpath (Gallery.make_path static_dir source_path))
          (Gallery.realpath comfy_path) = false ∨
        Gallery.strStartsWith (Gallery.realpath (Gallery.make_path static_dir target_path))
          (Gallery.realpath comfy_path) = false) →
        Gallery.move_image fs dirs static_dir comfy_path source_path target_path
          = (.forbidden, fs, dirs))) := by
  constructor
  · intro fs static_dir image_url hurl
    have hne : image_url ≠ "" :=
      Gallery.strStartsWith_ne_empty image_url "/static_gallery/" hurl (by decide)
    constructor
    · intro habsent
      unfold Gallery.delete_image
      rw [if_neg hne, if_pos hurl]
      simp only [habsent]
      rfl
    · intro hpresent hout
      unfold Gallery.delete_image
      rw [if_neg hne, if_pos hurl]
      simp only [hpresent, hout]
      rfl
  · intro fs dirs static_dir comfy_path source_path target_path hs ht
    have hor : ¬(source_path = "" ∨ target_path = "") := by
      rintro (h | h)
      · exact hs h
      · exact ht h
    constructor
    · intro habsent
      unfold Gallery.move_image
      rw [if_neg hor]
      simp only [habsent]
      rfl
    · intro hpresent hfail
      unfold Gallery.move_image
      rw [if_neg hor]
      simp only [hpresent, Bool.not_true, Bool.false_eq_true, if_false]
      have : (!Gallery.strStartsWith (Gallery.realpath (Gallery.make_path static_dir source_path))
                (Gallery.realpath static_dir) ||
              !Gallery.strStartsWith (Gallery.realpath (Gallery.make_path static_dir target_path))
                (Gallery.realpath static_dir) ||
              !Gallery.strStartsWith (Gallery.realpath (Gallery.make_path static_dir source_path))
                (Gallery.realpath comfy_path) ||
              !Gallery.strStartsWith (Gallery.realpath (Gallery.make_path static_dir target_path))
                (Gallery.realpath comfy_path)) = true := by
        rcases hfail with h | h | h | h <;> simp [h]
      rw [this]
      rfl

/-- Witness for C5 as amended: the concrete traversal request of the
counterexample is answered 404 unchanged, the same request on a filesystem
where `/etc/passwd` exists is answered 403 unchanged, and a move with a
traversal target is answered 403 unchanged. -/
theorem C5_rejection_paths_witness :
    Gallery.delete_image ["/g/out/a.png"] "/g/out" "/static_gallery/../../etc/passwd"
      = (Gallery.HttpOutcome.notFound, ["/g/out/a.png"]) ∧
    Gallery.delete_image ["/g/out/a.png", "/etc/passwd"] "/g/out"
        "/static_gallery/../../etc/passwd"
      = (Gallery.HttpOutcome.forbidden, ["/g/out/a.png", "/etc/passwd"]) ∧
    Gallery.move_image ["/g/out/a.png"] ["/g/out"] "/g/out" "/g" "a.png" "../../etc/evil.png"
      = (Gallery.HttpOutcome.forbidden, ["/g/out/a.png"], ["/g/out"]) := by
  refine ⟨?_, ?_, ?_⟩
  · exact (C5_rejection_paths.1 ["/g/out/a.png"] "/g/out"
      "/static_gallery/../../etc/passwd" (by decide)).1 (by decide)
  · exact (C5_rejection_paths.1 ["/g/out/a.png", "/etc/passwd"] "/g/out"
      "/static_gallery/../../etc/passwd" (by decide)).2 (by decide) (by decide)
  · exact (C5_rejection_paths.2 ["/g/out/a.png"] ["/g/out"] "/g/out" "/g"
      "a.png" "../../etc/evil.png" (by decide) (by decide)).2 (by decide)
      (Or.inr (Or.inl (by decide)))

/-- C6 counterexample: a start-watch arriving while the old watch has a
pending debounce timer and an executing rescan stops only the observer
thread — after the swap the old monitor still has its timer pending and its
scan in flight, so the old watch is not "stopped fully" as the claim
requires. -/
theorem C6_counterexample :
    ((Gallery.start_gallery_monitor_core (some Gallery.staleMonitor) (fun _ => "")
        (Gallery.FsTree.dir "output" true []) "/g/new" false).2.map
      (fun m => (m.handlerTimerPending, m.handlerScanInFlight, m.threadAlive)))
      = some (true, true, false) := by
  rfl

/-- C6 as amended: a start-watch arriving while another watch is active
stops and joins the old watch's OS observer thread before the new watch
starts, but that is all stopping does — the old handler's pending debounce
timer is not cancelled and an in-flight rescan is not joined (the old
monitor's final state differs from its initial state only in the thread
flag); and every start-watch seeds the snapshot cache by a synchronous scan
in the constructor, before the observer thread starts, so the started
monitor's cache is the scan of the tree rather than empty. -/
theorem C6_swap_behaviour :
    ∀ (m₀ : Gallery.FileSystemMonitor) (dateStr : Nat → String)
      (rootTree : Gallery.FsTree) (path : String) (up : Bool),
      (m₀.threadAlive = true →
        (Gallery.start_gallery_monitor_core (some m₀) dateStr rootTree path up).2
          = some { m₀ with threadAlive := false }) ∧
      (Gallery.FileSystemMonitor_mk dateStr rootTree path up).threadAlive = false ∧
      (Gallery.FileSystemMonitor_mk dateStr rootTree path up).last_known_folders
        = (Gallery._scan_for_images dateStr rootTree "output" true).1 ∧
      (Gallery.start_gallery_monitor_core (some m₀) dateStr rootTree path up).1.last_known_folders
        = (Gallery._scan_for_images dateStr rootTree "output" true).1 ∧
      (Gallery.start_gallery_monitor_core (some m₀) dateStr rootTree path up).1.threadAlive
        = true := by
  intro m₀ dateStr rootTree path up
  refine ⟨?_, rfl, rfl, rfl, rfl⟩
  intro halive
  unfold Gallery.start_gallery_monitor_core Gallery.stop_monitoring
  simp [halive]

/-- Witness for C6 as amended: applying the swap to the concrete busy
monitor. -/
theorem C6_swap_behaviour_witness :
    (Gallery.start_gallery_monitor_core (some Gallery.staleMonitor) (fun _ => "")
        (Gallery.FsTree.dir "output" true []) "/g/new" false).2
      = some { Gallery.staleMonitor with threadAlive := false } := by
  exact (C6_swap_behaviour Gallery.staleMonitor (fun _ => "")
    (Gallery.FsTree.dir "output" true []) "/g/new" false).1 rfl

/-- C7 counterexample: a start-watch with `use_polling_observer = true`
still instantiates the native observer — the flag lands in the monitor's
`interval` parameter and the observer construction does not consult it. -/
theorem C7_counterexample :
    (Gallery.start_gallery_monitor_core none (fun _ => "")
        (Gallery.FsTree.dir "output" true []) "/g/out" true).1.observer
      = Gallery.ObserverKind.native ∧
    Gallery.ObserverKind.native ≠ Gallery.ObserverKind.polling ∧
    (Gallery.FileSystemMonitor_mk (fun _ => "")
        (Gallery.FsTree.dir "output" true []) "/g/out" true).interval = true := by
  exact ⟨rfl, by decide, rfl⟩

/-- C7 as amended: the start-watch request accepts `use_polling_observer`,
but the watch lifecycle always constructs the native filesystem observer —
the flag is passed into the monitor constructor's `interval` parameter and
has no effect on the observer choice. -/
theorem C7_polling_flag_ignored :
    ∀ (old : Option Gallery.FileSystemMonitor) (dateStr : Nat → String)
      (rootTree : Gallery.FsTree) (path : String) (up : Bool),
      (Gallery.start_gallery_monitor_core old dateStr rootTree path up).1.observer
        = Gallery.ObserverKind.native ∧
      (Gallery.FileSystemMonitor_mk dateStr rootTree path up).observer
        = Gallery.ObserverKind.native ∧
      (Gallery.FileSystemMonitor_mk dateStr rootTree path up).interval = up := by
  intro old dateStr rootTree path up
  exact ⟨rfl, rfl, rfl⟩

/-- C8 counterexample: a file-creation event for `a.webm` — a supported media
extension per the claim (and per the scanner's own accept list) — never
triggers the debounce, because the subscription patterns omit `*.webm`, so
the event is dropped at the pattern layer. -/
theorem C8_counterexample :
    Gallery.hasExtIn Gallery.mediaExts "/out/a.webm" = true ∧
    (Gallery.handlesEvent (fun p => p) 500 [] 0
      { is_directory := false, event_type := "created",
        src_path := "/out/a.webm", dest_path := none }).1 = false := by
  exact ⟨by decide, by decide⟩

/-- C8 as amended: directory events never trigger the debounce; paths ending
in `.swp`, `.tmp` or `~` never trigger it; an event for a filename ending —
case-sensitively — in one of the six subscribed extensions `.png .jpg .jpeg
.webp .mp4 .gif`, of one of the four mutating event types, triggers the
debounce subject only to duplicate suppression within the debounce window;
and `.webm` files, though a supported media extension elsewhere in the
program, are not subscribed and never trigger it. -/
theorem C8_event_filter :
    (∀ (rp : String → String) (iv : Nat) (pr : Gallery.ProcessedEvents)
       (now : Nat) (e : Gallery.FsEvent),
      e.is_directory = true → (Gallery.handlesEvent rp iv pr now e).1 = false) ∧
    (∀ (rp : String → String) (iv : Nat) (pr : Gallery.ProcessedEvents)
       (now : Nat) (e : Gallery.FsEvent),
      (Gallery.strEndsWith e.src_path ".swp" || Gallery.strEndsWith e.src_path ".tmp" ||
       Gallery.strEndsWith e.src_path "~") = true →
      (Gallery.handlesEvent rp iv pr now e).1 = false) ∧
    (∀ (rp : String → String) (iv : Nat) (pr : Gallery.ProcessedEvents)
       (now : Nat) (e : Gallery.FsEvent),
      e.is_directory = false →
      ([".png", ".jpg", ".jpeg", ".webp", ".mp4", ".gif"].any
        (fun x => Gallery.strEndsWith e.src_path x)) = true →
      Gallery.memKey e.event_type ["created", "deleted", "modified", "moved"] = true →
      Gallery.alookup (e.event_type, rp e.src_path) pr = none →
      (Gallery.handlesEvent rp iv pr now e).1 = true) ∧
    (∀ (rp : String → String) (iv : Nat) (pr : Gallery.ProcessedEvents)
       (now : Nat) (e : Gallery.FsEvent),
      e.dest_path = none → Gallery.strEndsWith e.src_path ".webm" = true →
      (Gallery.handlesEvent rp iv pr now e).1 = false) := by
  refine ⟨?_, ?_, ?_, ?_⟩
  · intro rp iv pr now e hdir
    unfold Gallery.handlesEvent Gallery.on_any_event
    rcases h : Gallery.patternDispatch e with _ | _
    · simp
    · simp [hdir]
  · intro rp iv pr now e htemp
    unfold Gallery.handlesEvent Gallery.on_any_event
    rcases h : Gallery.patternDispatch e with _ | _
    · simp
    · rcases hdir : e.is_directory with _ | _
      · simp [htemp]
      · simp
  · intro rp iv pr now e hdir hext htype hfresh
    simp only [List.any_cons, List.any_nil, Bool.or_false, Bool.or_eq_true] at hext
    have htemp : (Gallery.strEndsWith e.src_path ".swp" ||
        Gallery.strEndsWith e.src_path ".tmp" ||
        Gallery.strEndsWith e.src_path "~") = false := by
      rcases hext with h | h | h | h | h | h
      · exact Gallery.tempSuffix_false_of_ext e.src_path ".png" h
          (by decide) (by decide) (by decide) (by decide) (by decide) (by decide)
      · exact Gallery.tempSuffix_false_of_ext e.src_path ".jpg" h
          (by decide) (by decide) (by decide) (by decide) (by decide) (by decide)
      · exact Gallery.tempSuffix_false_of_ext e.src_path ".jpeg" h
          (by decide) (by decide) (by decide) (by decide) (by decide) (by decide)
      · exact Gallery.tempSuffix_false_of_ext e.src_path ".webp" h
          (by decide) (by decide) (by decide) (by decide) (by decide) (by decide)
      · exact Gallery.tempSuffix_false_of_ext e.src_path ".mp4" h
          (by decide) (by decide) (by decide) (by decide) (by decide) (by decide)
      · exact Gallery.tempSuffix_false_of_ext e.src_path ".gif" h
          (by decide) (by decide) (by decide) (by decide) (by decide) (by decide)
    have hdisp : Gallery.patternDispatch e = true := by
      apply Gallery.patternDispatch_of_src
      simp only [Gallery.watchPatterns, List.any_cons, List.any_nil, Bool.or_false,
        Bool.or_eq_true]
      have w₁ : Gallery.matchesPattern e.src_path "*.png"
          = Gallery.strEndsWith e.src_path ".png" := rfl
      have w₂ : Gallery.matchesPattern e.src_path "*.jpg"
          = Gallery.strEndsWith e.src_path ".jpg" := rfl
      have w₃ : Gallery.matchesPattern e.src_path "*.jpeg"
          = Gallery.strEndsWith e.src_path ".jpeg" := rfl
      have w₄ : Gallery.matchesPattern e.src_path "*.webp"
          = Gallery.strEndsWith e.src_path ".webp" := rfl
      have w₅ : Gallery.matchesPattern e.src_path "*.mp4"
          = Gallery.strEndsWith e.src_path ".mp4" := rfl
      have w₆ : Gallery.matchesPattern e.src_path "*.gif"
          = Gallery.strEndsWith e.src_path ".gif" := rfl
      rw [w₁, w₂, w₃, w₄, w₅, w₆]
      tauto
    unfold Gallery.handlesEvent Gallery.on_any_event
    rw [hdisp]
    simp [hdir, htemp, hfresh, htype]
  · intro rp iv pr now e hdest hwebm
    have hdisp : Gallery.patternDispatch e = false := by
      unfold Gallery.patternDispatch Gallery.eventPaths
      rw [hdest]
      have h₁ := Gallery.strEndsWith_exclusive e.src_path ".webm" ".png" hwebm
        (by decide) (by decide)
      have h₂ := Gallery.strEndsWith_exclusive e.src_path ".webm" ".jpg" hwebm
        (by decide) (by decide)
      have h₃ := Gallery.strEndsWith_exclusive e.src_path ".webm" ".jpeg" hwebm
        (by decide) (by decide)
      have h₄ := Gallery.strEndsWith_exclusive e.src_path ".webm" ".webp" hwebm
        (by decide) (by decide)
      have h₅ := Gallery.strEndsWith_exclusive e.src_path ".webm" ".mp4" hwebm
        (by decide) (by decide)
      have h₆ := Gallery.strEndsWith_exclusive e.src_path ".webm" ".gif" hwebm
        (by decide) (by decide)
      simp only [Gallery.watchPatterns, List.any_cons, List.any_nil]
      have e₁ : Gallery.matchesPattern e.src_path "*.png"
          = Gallery.strEndsWith e.src_path ".png" := rfl
      have e₂ : Gallery.matchesPattern e.src_path "*.jpg"
          = Gallery.strEndsWith e.src_path ".jpg" := rfl
      have e₃ : Gallery.matchesPattern e.src_path "*.jpeg"
          = Gallery.strEndsWith e.src_path ".jpeg" := rfl
      have e₄ : Gallery.matchesPattern e.src_path "*.webp"
          = Gallery.strEndsWith e.src_path ".webp" := rfl
      have e₅ : Gallery.matchesPattern e.src_path "*.mp4"
          = Gallery.strEndsWith e.src_path ".mp4" := rfl
      have e₆ : Gallery.matchesPattern e.src_path "*.gif"
          = Gallery.strEndsWith e.src_path ".gif" := rfl
      rw [e₁, e₂, e₃, e₄, e₅, e₆, h₁, h₂, h₃, h₄, h₅, h₆]
      rfl
    unfold Gallery.handlesEvent
    rw [hdisp]
    rfl

/-- Witness for C8 as amended: a fresh `created` event for `a.png` triggers
the debounce; a directory event and a temp file do not. -/
theorem C8_event_filter_witness :
    (Gallery.handlesEvent (fun p => p) 500 [] 0
      { is_directory := false, event_type := "created",
        src_path := "/out/a.png", dest_path := none }).1 = true ∧
    (Gallery.handlesEvent (fun p => p) 500 [] 0
      { is_directory := true, event_type := "created",
        src_path := "/out/d.png", dest_path := none }).1 = false ∧
    (Gallery.handlesEvent (fun p => p) 500 [] 0
      { is_directory := false, event_type := "created",
        src_path := "/out/x.png.tmp", dest_path := none }).1 = false := by
  refine ⟨?_, ?_, ?_⟩
  · exact C8_event_filter.2.2.1 (fun p => p) 500 [] 0
      { is_directory := false, event_type := "created",
        src_path := "/out/a.png", dest_path := none }
      (by decide) (by decide) (by decide) (by decide)
  · exact C8_event_filter.1 (fun p => p) 500 [] 0
      { is_directory := true, event_type := "created",
        src_path := "/out/d.png", dest_path := none } (by decide)
  · exact C8_event_filter.2.1 (fun p => p) 500 [] 0
      { is_directory := false, event_type := "created",
        src_path := "/out/x.png.tmp", dest_path := none } (by decide)

/-- C9: the scan never escapes with an error.  An unreadable directory
(`os.listdir` raising) is skipped — it contributes nothing while the walk
continues over its siblings, and an unreadable root yields the empty
snapshot; a file whose mtime read raises is skipped while the rest of the
folder is still scanned; and a metadata-extractor failure on an image file
degrades to an empty metadata mapping, the file still entering the snapshot
with all other fields intact. -/
theorem C9_scan_error_containment :
    (∀ (dateStr : Nat → String) (base_path : String) (inc : Bool)
       (nm : String) (kids rest : List Gallery.FsTree) (rel : String),
      Gallery.scanChildren dateStr base_path inc
          (Gallery.FsTree.dir nm false kids :: rest) rel
        = Gallery.scanChildren dateStr base_path inc rest rel) ∧
    (∀ (dateStr : Nat → String) (base_path : String) (inc : Bool)
       (nm : String) (kids : List Gallery.FsTree),
      Gallery._scan_for_images dateStr (Gallery.FsTree.dir nm false kids) base_path inc
        = ([], false)) ∧
    (∀ (dateStr : Nat → String) (sub nm : String) (me : Except Unit Gallery.Metadata)
       (rest : List Gallery.FsTree),
      Gallery.folderContent dateStr sub (Gallery.FsTree.file nm (.error ()) me :: rest)
        = Gallery.folderContent dateStr sub rest) ∧
    (∀ (dateStr : Nat → String) (sub nm : String) (t : Nat)
       (rest : List Gallery.FsTree),
      Gallery.hasExtIn Gallery.imageExts nm = true →
      Gallery.folderContent dateStr sub
          (Gallery.FsTree.file nm (.ok t) (.error ()) :: rest)
        = (nm, { name := nm, url := Gallery.urlOf sub nm, timestamp := t,
                 date := dateStr t, metadata := [], type := "image" }) ::
          Gallery.folderContent dateStr sub rest) := by
  refine ⟨?_, ?_, ?_, ?_⟩
  · intro dateStr base_path inc nm kids rest rel
    simp [Gallery.scanChildren, Gallery.scanTree]
  · intro dateStr base_path inc nm kids
    simp [Gallery._scan_for_images, Gallery.scanTree]
  · intro dateStr sub nm me rest
    have hnone : Gallery.fileRecord dateStr sub nm (.error ()) me = none := by
      unfold Gallery.fileRecord
      split <;> rfl
    simp [Gallery.folderContent, List.filterMap_cons, hnone]
  · intro dateStr sub nm t rest himg
    have hmedia := Gallery.hasExtIn_media_of_image nm himg
    have hsome : Gallery.fileRecord dateStr sub nm (.ok t) (.error ())
        = some (nm, { name := nm, url := Gallery.urlOf sub nm, timestamp := t,
                      date := dateStr t, metadata := [], type := "image" }) := by
      unfold Gallery.fileRecord
      rw [if_pos hmedia]
      simp [himg]
    simp [Gallery.folderContent, List.filterMap_cons, hsome]

/-- Witness for C9: an image whose metadata extraction fails scans to an
entry with empty metadata; an unreadable subdirectory and a file with an
unreadable mtime contribute nothing. -/
theorem C9_scan_error_containment_witness :
    Gallery.folderContent (fun t => toString t) ""
        [Gallery.FsTree.file "a.png" (.ok 7) (.error ())]
      = [("a.png", { name := "a.png", url := "/static_gallery/a.png",
                     timestamp := 7, date := "7", metadata := [],
                     type := "image" })] ∧
    Gallery.scanChildren (fun t => toString t) "output" true
        [Gallery.FsTree.dir "broken" false []] ""
      = [] ∧
    Gallery.folderContent (fun t => toString t) ""
        [Gallery.FsTree.file "b.png" (.error ()) (.ok [])]
      = [] := by
  refine ⟨?_, ?_, ?_⟩
  · have h := (C9_scan_error_containment.2.2.2) (fun t => toString t) "" "a.png" 7 []
      (by decide)
    rw [h]
    rfl
  · have h := (C9_scan_error_containment.1) (fun t => toString t) "output" true
      "broken" [] [] ""
    rw [h]
    rfl
  · have h := (C9_scan_error_containment.2.2.1) (fun t => toString t) "" "b.png"
      (.ok []) []
    rw [h]
    rfl

/-- C10: the containment checks compare resolved paths by plain string
prefix with no separator boundary, so a file under a sibling directory whose
name extends the mounted directory's name passes the check and is deleted,
despite lying outside the mounted directory.  Concretely: with `/g/out`
mounted, the request resolving to `/g/output2/x.png` starts with `/g/out`,
passes, and the file is removed. -/
theorem C10_string_containment_flaw :
    ∃ (static_dir : String) (fs : List String) (image_url : String),
      (Gallery.delete_image fs static_dir image_url).1 = Gallery.HttpOutcome.ok ∧
      (Gallery.delete_image fs static_dir image_url).2 ≠ fs ∧
      Gallery.strStartsWith
        (Gallery.normpath (Gallery.joinpath static_dir
          (Gallery.strDropLen (Gallery.strLen "/static_gallery/") image_url)))
        (Gallery.realpath static_dir) = true ∧
      Gallery.underDir (Gallery.realpath static_dir)
        (Gallery.normpath (Gallery.joinpath static_dir
          (Gallery.strDropLen (Gallery.strLen "/static_gallery/") image_url))) = false := by
  refine ⟨"/g/out", ["/g/output2/x.png"], "/static_gallery/../output2/x.png",
    by decide, by decide, by decide, by decide⟩
